import Mathlib

/-!
Verification of the video-downloader orchestration engine against its
specification.  The Python sources (`utilities.py`, `video_downloader.py`)
are shallowly embedded below: pure functions become Lean functions, the
effectful operations (VPN calls, page interactions, the extraction engine)
are modelled by passing their externally determined outcomes as explicit
arguments, and the actions they perform are recorded as explicit event
lists.  Machine reals (the success-probability weights) are modelled as
rationals; wall-clock instants and durations as naturals (seconds).
-/

namespace VideoDownloader

/-! ## String primitives mirroring the Python operations used by the code -/

/-- Python `s.lower()` restricted to ASCII case mapping (all string
constants compared against in the sources are ASCII). -/
def strLower (s : String) : String := ⟨s.data.map Char.toLower⟩

/-- Python `s[:n]` (first `n` code points). -/
def strHead (s : String) (n : Nat) : String := ⟨s.data.take n⟩

/-- `leadsWith p s` : the string `s` starts with `p`
(Python `s.startswith(p)`). -/
def leadsWith (p s : String) : Bool := s.data.take p.data.length == p.data

/-- `trailsWith p s` : the string `s` ends with `p`
(Python `s.endswith(p)`). -/
def trailsWith (p s : String) : Bool := p.data.isSuffixOf s.data

/-- `hasSubList p s` : `p` occurs as a contiguous block inside `s`. -/
def hasSubList (p : List Char) : List Char → Bool
  | [] => p.isEmpty
  | c :: rest => p.isPrefixOf (c :: rest) || hasSubList p rest

/-- `hasSub p s` : `p` occurs as a contiguous substring of `s`
(Python `p in s`). -/
def hasSub (p s : String) : Bool := hasSubList p.data s.data

/-- Python `s.replace("www.", "")` on the character list: left-to-right,
non-overlapping removal of every occurrence of `"www."`. -/
def dropWWWList : List Char → List Char
  | 'w' :: 'w' :: 'w' :: '.' :: rest => dropWWWList rest
  | c :: rest => c :: dropWWWList rest
  | [] => []

/-- Python `s.replace("www.", "")`. -/
def dropWWW (s : String) : String := ⟨dropWWWList s.data⟩

/-! ## URL model

The sources obtain host and path through `urllib.parse.urlparse`; the
embedding works on the parsed components directly: `netloc` is the host
part (never containing the scheme) and `path` the path part. -/

structure Url where
  raw : String
  netloc : String
  path : String
deriving DecidableEq, Repr

/-! ## VideoAnalyzer (src/utilities.py lines 130-237) -/

/-- `VideoAnalyzer.video_extensions`. -/
def video_extensions : List String :=
  [".mp4", ".mkv", ".avi", ".mov", ".wmv", ".flv", ".webm", ".m4v"]

/-- `VideoAnalyzer.streaming_domains`. -/
def streaming_domains : List String :=
  ["youtube.com", "youtu.be", "vimeo.com", "dailymotion.com",
   "twitch.tv", "facebook.com", "instagram.com"]

/-- `VideoAnalyzer._is_direct_video_url`: the lowercased path ends in one
of the fixed video extensions. -/
def is_direct_video_url (u : Url) : Bool :=
  video_extensions.any (fun ext => trailsWith ext (strLower u.path))

/-- `domain = parsed.netloc.lower().replace('www.', '')` (line 145). -/
def urlDomain (u : Url) : String := dropWWW (strLower u.netloc)

/-- `VideoAnalyzer._estimate_complexity`. -/
def estimate_complexity (u : Url) (domain : String) : String :=
  if is_direct_video_url u then "low"
  else if streaming_domains.contains domain then "medium"
  else "high"

/-- `VideoAnalyzer._suggest_extraction_method`. -/
def suggest_extraction_method (u : Url) (domain : String) : String :=
  if is_direct_video_url u then "direct_download"
  else if streaming_domains.contains domain then "yt_dlp"
  else "browser_automation"

/-- The analysis dictionary produced by `VideoAnalyzer.analyze_url`. -/
structure Analysis where
  url : String
  domain : String
  path : String
  is_direct_video : Bool
  is_streaming_platform : Bool
  requires_extraction : Bool
  estimated_complexity : String
  suggested_method : String
deriving DecidableEq, Repr

/-- `VideoAnalyzer.analyze_url` (the non-exceptional branch; parsing of a
pre-parsed `Url` cannot fail). -/
def analyze_url (u : Url) : Analysis :=
  let domain := urlDomain u
  { url := u.raw
    domain := domain
    path := u.path
    is_direct_video := is_direct_video_url u
    is_streaming_platform := streaming_domains.contains domain
    requires_extraction := !is_direct_video_url u
    estimated_complexity := estimate_complexity u domain
    suggested_method := suggest_extraction_method u domain }

/-- The claim's wording for the host transformation: strip a leading
`"www."` only (a refinement comparison point; the code instead removes
every occurrence via `str.replace`). -/
def stripLeadingWWW (s : String) : String :=
  if leadsWith "www." s then ⟨s.data.drop 4⟩ else s

/-! ## ErrorRecovery (src/utilities.py lines 474-503 and spec section 4.6) -/

/-- `ErrorRecovery.error_patterns`, in the dictionary's insertion order
(Python dictionaries iterate in insertion order). -/
def error_patterns : List (String × List String) :=
  [("network_timeout", ["timeout", "connection", "network"]),
   ("video_not_found", ["not found", "404", "does not exist"]),
   ("access_denied", ["403", "forbidden", "access denied"]),
   ("rate_limited", ["rate limit", "429", "too many requests"]),
   ("login_required", ["login", "authentication", "unauthorized"])]

/-- The loop condition of `categorize_error`: some pattern of the row
occurs in the lowercased message
(`any(pattern in error_lower for pattern in patterns)`). -/
def rowMatches (error_message : String) (cp : String × List String) : Bool :=
  cp.2.any (fun p => hasSub p (strLower error_message))

/-- `ErrorRecovery.categorize_error`: first category (in table order) one
of whose patterns occurs in the lowercased message; `"unknown"` when none
matches. -/
def categorize_error (error_message : String) : String :=
  match error_patterns.find? (rowMatches error_message) with
  | some cp => cp.1
  | none => "unknown"

/-- The recovery decision dictionary returned by
`ErrorRecovery.suggest_recovery_action` (spec `RetryDecision`). -/
structure RecoveryAction where
  action : String
  delay : Option Nat := none
  escalate_ip : Bool := false
deriving DecidableEq, Repr

/-- Modelled from the spec: `src/utilities.py` is truncated inside
`ErrorRecovery.suggest_recovery_action` — the retained prefix ends inside
the `network_timeout` row at `delay: min(30 * attempt, 3…` — so the
remaining table rows and the retry-ceiling check are taken from spec
section 4.6: networkTimeout → retryWithDelay with delay `30 × attempt`
(capped, the cap read as `300` from the retained `min(30 * attempt, 3…`);
rateLimited → retryWithDelay, delay 120, escalateIp; accessDenied →
retryWithRotation, delay 60, escalateIp; loginRequired and notFound →
skip; unknown → retryWithDelay, delay 60; any attempt beyond the
`max_retries` ceiling → abort. -/
def suggest_recovery_action (max_retries : Nat) (error_category : String)
    (attempt : Nat) : RecoveryAction :=
  if attempt > max_retries then
    { action := "abort" }
  else if error_category = "network_timeout" then
    { action := "retry_with_delay", delay := some (min (30 * attempt) 300) }
  else if error_category = "rate_limited" then
    { action := "retry_with_delay", delay := some 120, escalate_ip := true }
  else if error_category = "access_denied" then
    { action := "retry_with_rotation", delay := some 60, escalate_ip := true }
  else if error_category = "login_required" then
    { action := "skip" }
  else if error_category = "video_not_found" then
    { action := "skip" }
  else
    { action := "retry_with_delay", delay := some 60 }

/-! ## GlobalConfig (src/video_downloader.py lines 55-72)

`sites` is a domain-keyed map, embedded as an association list; the
`user_agents` default list is irrelevant to every claim and kept
abstract as a list of strings. -/

structure GlobalConfig where
  output_directory : String := "./downloads"
  nordvpn_enabled : Bool := true
  ip_rotation_interval_min : Nat := 300
  ip_rotation_interval_max : Nat := 1800
  headless : Bool := false
  timeout : Nat := 30
  concurrent_downloads : Nat := 3
  retry_attempts : Nat := 3
  log_level : String := "INFO"
deriving DecidableEq, Repr

/-! ## VPNManager (src/video_downloader.py lines 108-190)

The manager's mutable fields `current_server` / `last_rotation` form the
state; wall-clock instants are naturals (seconds).  Outcomes of the
external `nordvpn` process calls and the values drawn from the random
source are passed in as explicit arguments. -/

structure VpnState where
  current_server : Option String
  last_rotation : Nat
deriving DecidableEq, Repr

/-- Outcome of one `subprocess.run("nordvpn connect …")` call: an exit
code, a `TimeoutExpired`, or any other exception. -/
inductive VpnCallResult where
  | exitCode (code : Nat)
  | timedOut
  | raised
deriving DecidableEq, Repr

/-- The candidate country list of `connect_to_random_server`. -/
def nordvpn_countries : List String :=
  ["US", "DE", "GB", "NL", "SE", "CH", "FR", "CA"]

/-- `VPNManager.connect_to_random_server`: `country` is the value drawn by
`random.choice(countries)`, `res` the external call's outcome, `now` the
wall clock at the success branch.  Returns the boolean result together
with the updated state. -/
def connect_to_random_server (enabled : Bool) (st : VpnState)
    (country : String) (res : VpnCallResult) (now : Nat) : Bool × VpnState :=
  if !enabled then (true, st)
  else
    match res with
    | .exitCode 0 => (true, { current_server := some country, last_rotation := now })
    | .exitCode _ => (false, st)
    | .timedOut => (false, st)
    | .raised => (false, st)

/-- Lower bound of `random.randint(300, 1800)` in
`VPNManager.rotate_if_needed` (line 170).  The draw is converted by
`timedelta(minutes=draw / 60)` into a duration of `draw` seconds. -/
def rotationSampleMin : Nat := 300

/-- Upper bound of the same `random.randint(300, 1800)` draw. -/
def rotationSampleMax : Nat := 1800

/-- The externally visible VPN events of one `rotate_if_needed` call. -/
inductive VpnEvent where
  | disconnectEv
  | reconnectEv
deriving DecidableEq, Repr

/-- `VPNManager.rotate_if_needed`: `elapsed` is the wall-clock time since
`last_rotation` in seconds, `sample` the value drawn by
`random.randint(300, 1800)` at this evaluation, and `reconnect_ok` the
result of the `connect_to_random_server` call performed when rotation is
due.  Returns the boolean result and the list of VPN events performed. -/
def rotate_if_needed (enabled : Bool) (force : Bool) (elapsed sample : Nat)
    (reconnect_ok : Bool) : Bool × List VpnEvent :=
  if !enabled then (true, [])
  else if force || decide (elapsed > sample) then
    (reconnect_ok, [VpnEvent.disconnectEv, VpnEvent.reconnectEv])
  else (true, [])

/-- The claim's wording for the sampling bounds of `rotate_if_needed` (a
refinement comparison point): the rotation duration is said to be drawn
from the configured `[ip_rotation_interval_min, ip_rotation_interval_max]`
of the global policy. -/
def claimedRotationBounds (cfg : GlobalConfig) : Nat × Nat :=
  (cfg.ip_rotation_interval_min, cfg.ip_rotation_interval_max)

/-! ## SiteConfig and the login step (src/video_downloader.py 32-52, 496-526) -/

structure SiteConfig where
  video_button : List String := []
  download_link : List String := []
  login_username : Option String := none
  login_password : Option String := none
  login_url : Option String := none
  login_username_field : String := "input[name=\x27username\x27], input[type=\x27email\x27]"
  login_password_field : String := "input[name=\x27password\x27], input[type=\x27password\x27]"
  login_submit_button : String := "button[type=\x27submit\x27], input[type=\x27submit\x27]"
  wait_after_login : Nat := 3
  custom_headers : List (String × String) := []
  human_delay_min : ℚ := 1
  human_delay_max : ℚ := 3
deriving DecidableEq, Repr

/-- Python truthiness of an `Optional[str]`: `None` and `""` are falsy. -/
def truthy (s : Option String) : Bool :=
  match s with
  | none => false
  | some v => v != ""

/-- One page interaction of the automation state machine.  A
`humanClick` stands for the whole human-paced click sequence of
`HumanBehaviorSimulator.human_click`; `humanDelay` for one
`random_delay` suspension. -/
inductive PageAction where
  | gotoPage (url : String)
  | humanDelay
  | fillField (selector value : String)
  | humanClick (selector : String)
  | waitSeconds (s : Nat)
deriving DecidableEq, Repr

/-- The page-interaction sequence of the credentialed branch of
`WebVideoDownloader._handle_login` (lines 501-522): optional navigation
to the login URL, username fill, password fill, submit click, settle
wait, with the interleaved human delays. -/
def login_actions (cfg : SiteConfig) (pageUrl : String) : List PageAction :=
  let login_url := if truthy cfg.login_url then cfg.login_url.getD "" else pageUrl
  (if pageUrl ≠ login_url then [PageAction.gotoPage login_url, PageAction.humanDelay]
   else [])
  ++ [PageAction.fillField cfg.login_username_field (cfg.login_username.getD ""),
      PageAction.humanDelay,
      PageAction.fillField cfg.login_password_field (cfg.login_password.getD ""),
      PageAction.humanDelay,
      PageAction.humanClick cfg.login_submit_button,
      PageAction.waitSeconds cfg.wait_after_login]

/-- `WebVideoDownloader._handle_login`.  `failAt` abstracts the `except`
branch: `none` means no page interaction raised, `some k` that the
interaction at position `k` raised, truncating the performed sequence.
Returns the boolean result and the interactions performed. -/
def handle_login (cfg : SiteConfig) (pageUrl : String) (failAt : Option Nat) :
    Bool × List PageAction :=
  if !(truthy cfg.login_username && truthy cfg.login_password) then (true, [])
  else
    match failAt with
    | none => (true, login_actions cfg pageUrl)
    | some k => (false, (login_actions cfg pageUrl).take k)

/-! ## VideoExtractor (src/video_downloader.py lines 259-369) -/

/-- ASCII rendering of the regex class `\w` (word character). -/
def isWordChar (c : Char) : Bool := c.isAlphanum || c == '_'

/-- ASCII rendering of the regex class `\s` / Python `str.strip`
whitespace. -/
def isSpaceChar (c : Char) : Bool :=
  c == ' ' || c == '\t' || c == '\n' || c == '\r' || c == '\x0b' || c == '\x0c'

/-- A character kept by `re.sub(r'[^\w\s-]', '', title)`. -/
def titleKeep (c : Char) : Bool := isWordChar c || isSpaceChar c || c == '-'

/-- Python `str.strip()` on the kept characters. -/
def stripSpaces (l : List Char) : List Char :=
  ((l.dropWhile isSpaceChar).reverse.dropWhile isSpaceChar).reverse

/-- A character of the regex class `[-\s]`. -/
def isDashOrSpace (c : Char) : Bool := c == '-' || isSpaceChar c

/-- `re.sub(r'[-\s]+', '-', s)`: each maximal run of `[-\s]` characters
becomes a single `'-'`.  The boolean flag records whether the previous
character belonged to a run. -/
def collapseRunsAux : List Char → Bool → List Char
  | [], _ => []
  | c :: rest, inRun =>
    if isDashOrSpace c then
      if inRun then collapseRunsAux rest true
      else '-' :: collapseRunsAux rest true
    else c :: collapseRunsAux rest false

/-- `re.sub(r'[-\s]+', '-', s)` on a string. -/
def collapseRuns (s : String) : String := ⟨collapseRunsAux s.data false⟩

/-- The `safe_title` computed by `_get_safe_filename` for a truthy title:
drop the characters outside `[\w\s-]`, strip, collapse `[-\s]` runs. -/
def cleanTitle (t : String) : String :=
  collapseRuns ⟨stripSpaces (t.data.filter titleKeep)⟩

/-- `VideoExtractor._get_safe_filename`.  `now` is `int(time.time())`,
used only by the fallback branch for an empty title. -/
def get_safe_filename (u : Url) (title : String) (now : Nat) : String :=
  strHead
    (if title ≠ "" then dropWWW u.netloc ++ "_" ++ cleanTitle title
     else dropWWW u.netloc ++ "_" ++ toString now) 100

/-- The claim's wording for `_get_safe_filename` on a non-empty title (a
refinement comparison point): the host with only a leading `"www."`
stripped, and the title cleaned without the intermediate
`str.strip()`. -/
def claimed_safe_filename (u : Url) (title : String) : String :=
  strHead (stripLeadingWWW u.netloc ++ "_" ++ collapseRuns ⟨title.data.filter titleKeep⟩) 100

structure VideoInfo where
  url : String
  title : String := ""
  duration : Option Nat := none
  format_id : Option String := none
  filesize : Option Nat := none
  quality : Option String := none
  direct_url : Option String := none
deriving DecidableEq, Repr

structure DownloadResult where
  url : String
  success : Bool
  filepath : Option String := none
  error : Option String := none
  video_info : Option VideoInfo := none
  download_time : Option Nat := none
deriving DecidableEq, Repr

/-- `pathlib.Path.suffix` of a bare file name: the substring from the
last `'.'`, provided that dot is neither the first nor the last
character; otherwise the empty string. -/
def pathSuffix (name : String) : String :=
  let l := name.data
  let n := l.length
  let k := l.reverse.findIdx (fun c => c == '.')
  if k < n then
    let i := n - 1 - k
    if 0 < i ∧ i < n - 1 then ⟨l.drop i⟩ else ""
  else ""

/-- The video suffixes accepted by the post-download check
(`download_video` line 350). -/
def video_file_suffixes : List String := [".mp4", ".mkv", ".webm", ".avi"]

/-- `self.output_dir.glob(f"{filename}.*")` membership for a file name
(glob metacharacters inside the stem are not modelled; the stems built
by `_get_safe_filename` contain none). -/
def globMatches (filename f : String) : Bool := leadsWith (filename ++ ".") f

/-- The `filename` chosen by `download_video` (lines 323-326): the truthy
custom name, else the safe name derived from URL and title. -/
def download_filename (u : Url) (custom_filename : Option String)
    (vi : VideoInfo) (now : Nat) : String :=
  if truthy custom_filename then custom_filename.getD ""
  else get_safe_filename u vi.title now

/-- `downloaded_files` / `video_files` of `download_video` (lines
348-350): the directory entries matching the glob `"{filename}.*"`,
restricted to those with a video suffix. -/
def found_video_files (filename : String) (files : List String) : List String :=
  (files.filter (fun f => globMatches filename f)).filter
    (fun f => video_file_suffixes.contains (pathSuffix f))

/-- `VideoExtractor.download_video`.  `info` is the result of
`extract_video_info`, `files` the directory listing after the engine ran
(in glob enumeration order), `dt` the measured elapsed time and `now`
the clock used by the fallback file naming. -/
def download_video (u : Url) (custom_filename : Option String)
    (info : Option VideoInfo) (files : List String) (dt : Nat) (now : Nat) :
    DownloadResult :=
  match info with
  | none => { url := u.raw, success := false,
              error := some "Keine Video-Informationen gefunden" }
  | some vi =>
    match found_video_files (download_filename u custom_filename vi now) files with
    | f :: _ => { url := u.raw, success := true, filepath := some f,
                  video_info := some vi, download_time := some dt }
    | [] => { url := u.raw, success := false,
              error := some "Download-Datei nicht gefunden" }

/-! ## Batch report (src/utilities.py lines 196-237) -/

/-- One analysis dictionary as consumed by `generate_analysis_report`:
`dict.get` with a missing key is modelled by `none`. -/
structure AnalysisEntry where
  is_direct_video : Bool := false
  is_streaming_platform : Bool := false
  estimated_complexity : Option String := none
  suggested_method : Option String := none
deriving DecidableEq, Repr

/-- `success_weights` of `_estimate_success_probability`. -/
def success_weights : List (String × ℚ) :=
  [("direct_download", 95/100), ("yt_dlp", 85/100), ("browser_automation", 60/100)]

/-- `success_weights.get(method, 0.50)`. -/
def lookupWeight (m : String) : ℚ := (success_weights.lookup m).getD (50/100)

/-- The weight contributed by one analysis:
`analysis.get('suggested_method', 'browser_automation')` looked up with
default `0.50`. -/
def methodWeight (m : Option String) : ℚ := lookupWeight (m.getD "browser_automation")

/-- `VideoAnalyzer._estimate_success_probability`. -/
def estimate_success_probability (analyses : List AnalysisEntry) : ℚ :=
  if analyses.isEmpty then 0
  else (analyses.foldl (fun acc a => acc + methodWeight a.suggested_method) 0) /
    analyses.length

/-- `dist[key] = dist.get(key, 0) + 1` on an association list. -/
def bumpCount (l : List (String × Nat)) (k : String) : List (String × Nat) :=
  match l with
  | [] => [(k, 1)]
  | (k2, v) :: rest => if k2 = k then (k2, v + 1) :: rest else (k2, v) :: bumpCount rest k

structure AnalysisReport where
  total_urls : Nat
  direct_videos : Nat
  streaming_platforms : Nat
  complexity_distribution : List (String × Nat)
  method_distribution : List (String × Nat)
  success_probability : ℚ
deriving DecidableEq, Repr

/-- `VideoAnalyzer.generate_analysis_report`. -/
def generate_analysis_report (analyses : List AnalysisEntry) : AnalysisReport :=
  { total_urls := analyses.length
    direct_videos := (analyses.filter (fun a => a.is_direct_video)).length
    streaming_platforms := (analyses.filter (fun a => a.is_streaming_platform)).length
    complexity_distribution :=
      analyses.foldl (fun d a => bumpCount d (a.estimated_complexity.getD "unknown")) []
    method_distribution :=
      analyses.foldl (fun d a => bumpCount d (a.suggested_method.getD "unknown")) []
    success_probability := estimate_success_probability analyses }

/-- The fixed per-strategy success weights in the claim's wording:
`0.95` for direct, `0.85` for the extractor, `0.60` for browser
automation, `0.50` for any unknown strategy. -/
def claimStrategyWeight (s : String) : ℚ :=
  if s = "direct_download" then 95/100
  else if s = "yt_dlp" then 85/100
  else if s = "browser_automation" then 60/100
  else 50/100

/-! ## Theorems -/

/-- `find?` returns the element at the first index whose predicate
holds, when every earlier index fails it. -/
lemma find?_first {α : Type} (p : α → Bool) :
    ∀ (l : List α) (i : Nat) (hi : i < l.length), p (l.get ⟨i, hi⟩) = true →
      (∀ (j : Nat) (hj : j < l.length), j < i → p (l.get ⟨j, hj⟩) = false) →
      l.find? p = some (l.get ⟨i, hi⟩) := by
  intro l
  induction l with
  | nil => intro i hi _ _; exact absurd hi (by simp)
  | cons a t ih =>
    intro i hi hp he
    cases i with
    | zero =>
      have hpa : p a = true := hp
      rw [List.find?_cons_of_pos _ hpa]
      rfl
    | succ n =>
      have ha : p a = false :=
        he 0 (by simp only [List.length_cons]; omega) (by omega)
      rw [List.find?_cons_of_neg _ (by simp [ha])]
      exact ih n (by simp only [List.length_cons] at hi; omega) hp
        (fun j hj hlt =>
          he (j + 1) (by simp only [List.length_cons]; omega) (by omega))

/-- C2.  The failure classifier is total and deterministic: every message
maps to exactly one of the six categories; when no pattern of any table
row occurs in the lowercased message the result defaults to `unknown`;
and when the patterns of several categories match, the first category in
the fixed table order wins: whenever row `i` matches and every earlier
row does not, the result is row `i`'s category. -/
theorem claim2_spec (msg : String) :
    categorize_error msg ∈
      ["network_timeout", "video_not_found", "access_denied",
       "rate_limited", "login_required", "unknown"] ∧
    ((∀ cp ∈ error_patterns, rowMatches msg cp = false) →
      categorize_error msg = "unknown") ∧
    (∀ (i : Nat) (hi : i < error_patterns.length),
      rowMatches msg (error_patterns.get ⟨i, hi⟩) = true →
      (∀ (j : Nat) (hj : j < error_patterns.length), j < i →
        rowMatches msg (error_patterns.get ⟨j, hj⟩) = false) →
      categorize_error msg = (error_patterns.get ⟨i, hi⟩).1) := by
  refine ⟨?_, ?_, ?_⟩
  · unfold categorize_error
    cases hf : error_patterns.find? (rowMatches msg) with
    | none => simp
    | some cp =>
      have hmem := List.mem_of_find?_eq_some hf
      fin_cases hmem <;> simp
  · intro hnone
    unfold categorize_error
    rw [List.find?_eq_none.mpr (fun cp hcp => by simp [hnone cp hcp])]
  · intro i hi hp he
    unfold categorize_error
    rw [find?_first (rowMatches msg) error_patterns i hi hp he]

theorem claim2_witness :
    hasSub "timeout" (strLower "Error: timeout and rate limit hit") = true ∧
    hasSub "rate limit" (strLower "Error: timeout and rate limit hit") = true ∧
    categorize_error "Error: timeout and rate limit hit" = "network_timeout" ∧
    hasSub "404" (strLower "HTTP 404 after 403 forbidden") = true ∧
    hasSub "403" (strLower "HTTP 404 after 403 forbidden") = true ∧
    categorize_error "HTTP 404 after 403 forbidden" = "video_not_found" ∧
    categorize_error "Strange failure xyz" = "unknown" := by
  refine ⟨by decide, by decide, ?_, by decide, by decide, ?_, ?_⟩
  · exact (claim2_spec "Error: timeout and rate limit hit").2.2 0 (by decide)
      (by decide) (fun j hj hlt => absurd hlt (by omega))
  · exact (claim2_spec "HTTP 404 after 403 forbidden").2.2 1 (by decide)
      (by decide)
      (fun j hj hlt => by
        have hj0 : j = 0 := by omega
        subst hj0
        exact (by decide :
          rowMatches "HTTP 404 after 403 forbidden"
            (error_patterns.get ⟨0, by decide⟩) = false))
  · exact (claim2_spec "Strange failure xyz").2.1 (by decide)

/-- C3.  Within the retry ceiling the retry policy returns exactly the
table rows of spec section 4.6 (spec-modelled: the source is truncated
inside this function). -/
theorem claim3_spec (m attempt : Nat) (h : attempt ≤ m) :
    suggest_recovery_action m "network_timeout" attempt =
      { action := "retry_with_delay", delay := some (min (30 * attempt) 300) } ∧
    suggest_recovery_action m "rate_limited" attempt =
      { action := "retry_with_delay", delay := some 120, escalate_ip := true } ∧
    suggest_recovery_action m "access_denied" attempt =
      { action := "retry_with_rotation", delay := some 60, escalate_ip := true } ∧
    suggest_recovery_action m "login_required" attempt = { action := "skip" } ∧
    suggest_recovery_action m "video_not_found" attempt = { action := "skip" } ∧
    suggest_recovery_action m "unknown" attempt =
      { action := "retry_with_delay", delay := some 60 } := by
  have hng : ¬ attempt > m := by omega
  refine ⟨?_, ?_, ?_, ?_, ?_, ?_⟩ <;> simp [suggest_recovery_action, hng]

theorem claim3_witness :
    suggest_recovery_action 3 "network_timeout" 1 =
      { action := "retry_with_delay", delay := some 30 } ∧
    suggest_recovery_action 3 "rate_limited" 2 =
      { action := "retry_with_delay", delay := some 120, escalate_ip := true } :=
  ⟨(claim3_spec 3 1 (by decide)).1, (claim3_spec 3 2 (by decide)).2.1⟩

/-- C4.  Beyond the retry ceiling every category resolves to abort
(spec-modelled: the source is truncated inside this function). -/
theorem claim4_spec (m : Nat) (category : String) (n : Nat) (h : n > m) :
    suggest_recovery_action m category n = { action := "abort" } := by
  simp [suggest_recovery_action, h]

theorem claim4_witness :
    suggest_recovery_action 3 "rate_limited" 4 = { action := "abort" } :=
  claim4_spec 3 "rate_limited" 4 (by decide)

/-- C9.  A site profile that does not carry a full credential pair makes
the login step return success immediately with no page interaction. -/
theorem claim9_spec (cfg : SiteConfig) (pageUrl : String) (failAt : Option Nat)
    (h : cfg.login_username = none ∨ cfg.login_password = none) :
    handle_login cfg pageUrl failAt = (true, []) := by
  unfold handle_login
  rcases h with h | h <;> simp [truthy, h]

theorem claim9_witness :
    handle_login {} "https://example.com/watch" none = (true, []) :=
  claim9_spec {} "https://example.com/watch" none (Or.inl rfl)

/-- C5, counterexample.  The claim says the rotation-due duration is
sampled from the configured `[ip_rotation_interval_min,
ip_rotation_interval_max]` of the global policy; the code samples
`random.randint(300, 1800)` with hard-coded bounds.  With a policy
configured to `[10, 20]` the claim mandates rotation whenever 100 seconds
have elapsed (every claimed sample is below 100), yet the code may draw
1000 — inside its real range, outside the configured one — and then
performs no rotation. -/
theorem claim5_counterexample :
    claimedRotationBounds
        { ip_rotation_interval_min := 10, ip_rotation_interval_max := 20 } = (10, 20) ∧
    rotationSampleMin = 300 ∧ rotationSampleMax = 1800 ∧
    ¬(10 ≤ 1000 ∧ 1000 ≤ 20) ∧
    (rotationSampleMin ≤ 1000 ∧ 1000 ≤ rotationSampleMax) ∧
    rotate_if_needed true false 100 1000 true = (true, []) := by
  refine ⟨rfl, rfl, rfl, by decide, by decide, rfl⟩

/-- C5, amended.  With the VPN enabled, `rotate_if_needed` compares the
elapsed time since the last rotation against a duration freshly drawn at
this evaluation from the fixed range `[300, 1800]` seconds (hard-coded in
the function; numerically equal to the `GlobalConfig` defaults but not
read from the policy), and performs a disconnect followed by a reconnect
exactly when `force` is set or the elapsed time exceeds that duration, in
which case the call's result is the reconnect's result. -/
theorem claim5_spec (force : Bool) (elapsed sample : Nat) (reconnect_ok : Bool)
    (h1 : rotationSampleMin ≤ sample) (h2 : sample ≤ rotationSampleMax) :
    ((rotate_if_needed true force elapsed sample reconnect_ok).2 =
        [VpnEvent.disconnectEv, VpnEvent.reconnectEv] ↔
      (force = true ∨ elapsed > sample)) ∧
    ((force = true ∨ elapsed > sample) →
      (rotate_if_needed true force elapsed sample reconnect_ok).1 = reconnect_ok) ∧
    (¬(force = true ∨ elapsed > sample) →
      rotate_if_needed true force elapsed sample reconnect_ok = (true, [])) := by
  by_cases hc : force = true ∨ elapsed > sample
  · have hb : (force || decide (elapsed > sample)) = true := by
      rcases hc with hc | hc <;> simp [hc]
    refine ⟨?_, fun _ => ?_, fun hn => absurd hc hn⟩ <;>
      simp [rotate_if_needed, hb, hc]
  · have hb : (force || decide (elapsed > sample)) = false := by
      push_neg at hc
      simp [hc.1, hc.2, Nat.not_lt.mpr hc.2]
    refine ⟨?_, fun hyes => absurd hyes hc, fun _ => ?_⟩ <;>
      simp [rotate_if_needed, hb, hc]

theorem claim5_witness :
    (rotate_if_needed true false 2000 300 true).2 =
      [VpnEvent.disconnectEv, VpnEvent.reconnectEv] :=
  ((claim5_spec false 2000 300 true (by decide) (by decide)).1).mpr
    (Or.inr (by decide))

/-- C6.  The VPN connect operation always returns a boolean signal: a
disabled VPN is a no-op success; a zero exit code of the external client
records the chosen country and the rotation timestamp; a non-zero exit,
a timeout or any other exception reports failure and leaves the state
unchanged. -/
theorem claim6_spec (st : VpnState) (country : String) (res : VpnCallResult)
    (now : Nat) :
    (connect_to_random_server false st country res now = (true, st)) ∧
    (res = VpnCallResult.exitCode 0 →
      connect_to_random_server true st country res now =
        (true, { current_server := some country, last_rotation := now })) ∧
    (res ≠ VpnCallResult.exitCode 0 →
      connect_to_random_server true st country res now = (false, st)) := by
  refine ⟨rfl, ?_, ?_⟩
  · rintro rfl; rfl
  · intro h
    cases res with
    | exitCode c =>
      cases c with
      | zero => exact absurd rfl h
      | succ k => rfl
    | timedOut => rfl
    | raised => rfl

theorem claim6_witness :
    connect_to_random_server true ⟨none, 0⟩ "US" (VpnCallResult.exitCode 0) 7 =
      (true, ⟨some "US", 7⟩) :=
  (claim6_spec ⟨none, 0⟩ "US" (VpnCallResult.exitCode 0) 7).2.1 rfl

/-- C1, counterexample.  The claim's second rule tests the host with the
`"www."` prefix stripped against the streaming set; the code instead
removes every occurrence of `"www."` (`str.replace`).  For the host
`"youtube.www.com"` the prefix-stripped form is the host itself, which is
not in the streaming set — under the claim the URL must get
complexity `high` with the browser-automation strategy — yet the code
turns it into `"youtube.com"` and returns `medium` / `yt_dlp`. -/
theorem claim1_counterexample :
    stripLeadingWWW (strLower "youtube.www.com") = "youtube.www.com" ∧
    streaming_domains.contains "youtube.www.com" = false ∧
    is_direct_video_url ⟨"https://youtube.www.com/v", "youtube.www.com", "/v"⟩ = false ∧
    (analyze_url ⟨"https://youtube.www.com/v", "youtube.www.com", "/v"⟩).estimated_complexity
      = "medium" ∧
    (analyze_url ⟨"https://youtube.www.com/v", "youtube.www.com", "/v"⟩).suggested_method
      = "yt_dlp" := by
  refine ⟨by decide, by decide, by decide, rfl, rfl⟩

/-- C1, amended.  The classifier applies its rules in order: if the
lowercased path ends in one of the fixed video extensions the URL is a
direct video with complexity `low` and the direct-download strategy;
otherwise, if the lowercased host with every occurrence of `"www."`
removed is in the fixed streaming-domain set, it is a streaming platform
with complexity `medium` and the `yt_dlp` strategy; otherwise complexity
is `high` with the browser-automation strategy. -/
theorem claim1_spec (u : Url) :
    ((∃ ext ∈ video_extensions, trailsWith ext (strLower u.path) = true) →
      (analyze_url u).is_direct_video = true ∧
      (analyze_url u).estimated_complexity = "low" ∧
      (analyze_url u).suggested_method = "direct_download") ∧
    ((¬∃ ext ∈ video_extensions, trailsWith ext (strLower u.path) = true) →
      dropWWW (strLower u.netloc) ∈ streaming_domains →
      (analyze_url u).is_streaming_platform = true ∧
      (analyze_url u).estimated_complexity = "medium" ∧
      (analyze_url u).suggested_method = "yt_dlp") ∧
    ((¬∃ ext ∈ video_extensions, trailsWith ext (strLower u.path) = true) →
      dropWWW (strLower u.netloc) ∉ streaming_domains →
      (analyze_url u).estimated_complexity = "high" ∧
      (analyze_url u).suggested_method = "browser_automation") := by
  have hdir : is_direct_video_url u = true ↔
      ∃ ext ∈ video_extensions, trailsWith ext (strLower u.path) = true := by
    simp [is_direct_video_url, List.any_eq_true]
  have hdom : streaming_domains.contains (urlDomain u) = true ↔
      dropWWW (strLower u.netloc) ∈ streaming_domains := by
    simp [urlDomain, List.contains]
  refine ⟨fun h => ?_, fun h hs => ?_, fun h hs => ?_⟩
  · have hd : is_direct_video_url u = true := hdir.mpr h
    simp [analyze_url, estimate_complexity, suggest_extraction_method, hd]
  · have hd : is_direct_video_url u = false := by
      cases h0 : is_direct_video_url u
      · rfl
      · exact absurd (hdir.mp h0) h
    have hm : streaming_domains.contains (urlDomain u) = true := hdom.mpr hs
    simp [analyze_url, estimate_complexity, suggest_extraction_method, hd,
      urlDomain] at hm ⊢
    simp [hm]
  · have hd : is_direct_video_url u = false := by
      cases h0 : is_direct_video_url u
      · rfl
      · exact absurd (hdir.mp h0) h
    have hm : streaming_domains.contains (urlDomain u) = false := by
      cases h0 : streaming_domains.contains (urlDomain u)
      · rfl
      · exact absurd (hdom.mp h0) hs
    simp [analyze_url, estimate_complexity, suggest_extraction_method, hd,
      urlDomain] at hm ⊢
    simp [hm]

theorem claim1_witness :
    (analyze_url ⟨"https://x.com/a.mp4", "x.com", "/a.mp4"⟩).is_direct_video = true ∧
    (analyze_url ⟨"https://x.com/a.mp4", "x.com", "/a.mp4"⟩).estimated_complexity = "low" ∧
    (analyze_url ⟨"https://x.com/a.mp4", "x.com", "/a.mp4"⟩).suggested_method
      = "direct_download" :=
  (claim1_spec ⟨"https://x.com/a.mp4", "x.com", "/a.mp4"⟩).1 (by decide)

/-- Membership in the post-download file check: found files are exactly
the directory entries matching the glob on the stem that carry a video
suffix. -/
lemma mem_found_video_files (filename : String) (files : List String) (f : String) :
    f ∈ found_video_files filename files ↔
      f ∈ files ∧ globMatches filename f = true ∧
        video_file_suffixes.contains (pathSuffix f) = true := by
  simp only [found_video_files, List.mem_filter, List.contains,
    List.elem_eq_mem, decide_eq_true_eq, and_assoc]

/-- C7.  The download operation succeeds exactly when a file matching the
expected name stem with a video suffix exists in the output directory
after the engine ran — absence is failure even though the engine
(invoked with `ignoreerrors`) reported no error — and on success the
result carries the first such file; a missing extraction result is also
a failure. -/
theorem claim7_spec (u : Url) (custom_filename : Option String) (vi : VideoInfo)
    (files : List String) (dt now : Nat) (filename : String)
    (hfn : filename = download_filename u custom_filename vi now) :
    ((download_video u custom_filename none files dt now).success = false) ∧
    ((download_video u custom_filename (some vi) files dt now).success = true ↔
      ∃ f ∈ files, globMatches filename f = true ∧
        video_file_suffixes.contains (pathSuffix f) = true) ∧
    ((download_video u custom_filename (some vi) files dt now).filepath =
      (found_video_files filename files).head?) := by
  subst hfn
  have hne : (found_video_files (download_filename u custom_filename vi now) files ≠ []) ↔
      ∃ f ∈ files, globMatches (download_filename u custom_filename vi now) f = true ∧
        video_file_suffixes.contains (pathSuffix f) = true := by
    rw [Ne, List.eq_nil_iff_forall_not_mem]
    push_neg
    constructor
    · rintro ⟨f, hf⟩
      exact ⟨f, (mem_found_video_files _ _ f).mp hf⟩
    · rintro ⟨f, hf1, hf2, hf3⟩
      exact ⟨f, (mem_found_video_files _ _ f).mpr ⟨hf1, hf2, hf3⟩⟩
  refine ⟨rfl, ?_, ?_⟩
  · rw [← hne]
    cases hl : found_video_files (download_filename u custom_filename vi now) files with
    | nil => simp [download_video, hl]
    | cons f t => simp [download_video, hl]
  · cases hl : found_video_files (download_filename u custom_filename vi now) files with
    | nil => simp [download_video, hl]
    | cons f t => simp [download_video, hl]

theorem claim7_witness :
    (download_video ⟨"u", "x.com", "/a"⟩ none (some { url := "u", title := "t" })
        ["x.com_t.mp4", "x.com_t.info.json"] 5 0).success = true ∧
    (download_video ⟨"u", "x.com", "/a"⟩ none (some { url := "u", title := "t" })
        ["x.com_t.mp4", "x.com_t.info.json"] 5 0).filepath = some "x.com_t.mp4" := by
  have h := claim7_spec ⟨"u", "x.com", "/a"⟩ none { url := "u", title := "t" }
    ["x.com_t.mp4", "x.com_t.info.json"] 5 0 "x.com_t" (by decide)
  exact ⟨h.2.1.mpr (by decide), h.2.2.trans (by decide)⟩

/-- Accumulating a per-element weight with `foldl` computes the sum of
the mapped weights. -/
lemma foldl_add_map {α : Type} (w : α → ℚ) :
    ∀ (l : List α) (c : ℚ), l.foldl (fun acc a => acc + w a) c = c + (l.map w).sum
  | [], c => by simp
  | a :: l, c => by
    rw [List.foldl_cons, foldl_add_map w l (c + w a)]
    simp [add_assoc]

/-- The code's weight table with default `0.50` agrees with the claim's
per-strategy weight function. -/
lemma lookupWeight_eq (s : String) : lookupWeight s = claimStrategyWeight s := by
  unfold lookupWeight claimStrategyWeight success_weights
  by_cases h1 : s = "direct_download"
  · subst h1; simp [List.lookup]
  · rw [if_neg h1]
    by_cases h2 : s = "yt_dlp"
    · subst h2; simp [List.lookup]
    · rw [if_neg h2]
      by_cases h3 : s = "browser_automation"
      · subst h3; simp [List.lookup]
      · rw [if_neg h3]
        have e1 : (s == "direct_download") = false := beq_eq_false_iff_ne.mpr h1
        have e2 : (s == "yt_dlp") = false := beq_eq_false_iff_ne.mpr h2
        have e3 : (s == "browser_automation") = false := beq_eq_false_iff_ne.mpr h3
        simp [List.lookup, e1, e2, e3]

/-- C8.  For a non-empty batch, the report's success probability is the
arithmetic mean of the fixed per-strategy weights (0.95 direct, 0.85
extractor, 0.60 browser automation, 0.50 unknown) over the analyses,
where an analysis without a recorded strategy defaults to browser
automation. -/
theorem claim8_spec (analyses : List AnalysisEntry) (h : analyses ≠ []) :
    (generate_analysis_report analyses).success_probability =
      (analyses.map
        (fun a => claimStrategyWeight (a.suggested_method.getD "browser_automation"))).sum
        / analyses.length := by
  have hie : analyses.isEmpty = false := by
    cases analyses with
    | nil => exact absurd rfl h
    | cons a l => rfl
  have hfun : (fun a : AnalysisEntry => methodWeight a.suggested_method) =
      (fun a => claimStrategyWeight (a.suggested_method.getD "browser_automation")) := by
    funext a
    rw [methodWeight, lookupWeight_eq]
  show estimate_success_probability analyses = _
  rw [estimate_success_probability, hie]
  simp only [Bool.false_eq_true, if_false]
  rw [show (fun (acc : ℚ) (a : AnalysisEntry) => acc + methodWeight a.suggested_method) =
      (fun acc a => acc +
        claimStrategyWeight (a.suggested_method.getD "browser_automation")) from
    funext fun acc => funext fun a => by rw [methodWeight, lookupWeight_eq]]
  rw [foldl_add_map]
  simp

theorem claim8_witness :
    (generate_analysis_report
        [{ suggested_method := some "direct_download" },
         { suggested_method := some "yt_dlp" }]).success_probability = 9 / 10 :=
  (claim8_spec
    [{ suggested_method := some "direct_download" },
     { suggested_method := some "yt_dlp" }] (by decide)).trans
    (by
      have hne : ("yt_dlp" : String) ≠ "direct_download" := by decide
      norm_num [claimStrategyWeight, hne])

/-- Truncating an appended list still starts with the (equally truncated)
left part. -/
lemma take_append_take (l r : List Char) (n : Nat) :
    ((l ++ r).take n).take ((l.take n).length) = l.take n := by
  rw [List.length_take, List.take_take]
  have h1 : min (min n l.length) n = min n l.length := by omega
  rw [h1]
  rcases Nat.le_total n l.length with h | h
  · rw [Nat.min_eq_left h, List.take_append_of_le_length h]
  · rw [Nat.min_eq_right h, List.take_left, List.take_of_length_le h]

/-- A truncated concatenation begins with the equally truncated left
operand. -/
lemma leadsWith_strHead (d rest : String) (n : Nat) :
    leadsWith (strHead d n) (strHead (d ++ rest) n) = true := by
  show ((((d ++ rest).data.take n).take ((d.data.take n).length)) == d.data.take n) = true
  rw [String.data_append, take_append_take]
  simp

/-- C10, counterexample.  The claim says the filename begins with the
host with the `"www."` prefix stripped and that the title transform only
deletes disallowed characters and collapses whitespace/hyphen runs; the
code removes every `"www."` occurrence from the host (`str.replace`) and
additionally strips leading/trailing whitespace of the title before
collapsing.  For host `"a.www.b.com"` and title `" x "` the code yields
`"a.b.com_x"`, while the claimed description yields
`"a.www.b.com_-x-"`, and the code's result does not begin with the
prefix-stripped host. -/
theorem claim10_counterexample :
    get_safe_filename ⟨"https://a.www.b.com/v", "a.www.b.com", "/v"⟩ " x " 0
      = "a.b.com_x" ∧
    claimed_safe_filename ⟨"https://a.www.b.com/v", "a.www.b.com", "/v"⟩ " x "
      = "a.www.b.com_-x-" ∧
    ("a.b.com_x" : String) ≠ "a.www.b.com_-x-" ∧
    stripLeadingWWW "a.www.b.com" = "a.www.b.com" ∧
    leadsWith "a.www.b.com" "a.b.com_x" = false := by
  refine ⟨by decide, by decide, by decide, by decide, by decide⟩

/-- C10, amended.  The safe-filename builder returns at most 100
characters; the result begins with (a prefix of) the host with every
occurrence of `"www."` removed; and for a non-empty title it equals that
host form, an underscore, and the title with the characters outside
word/whitespace/hyphen removed, leading and trailing whitespace
stripped, and the remaining whitespace/hyphen runs collapsed to single
hyphens — all truncated to 100 characters. -/
theorem claim10_spec (u : Url) (title : String) (now : Nat) :
    (get_safe_filename u title now).data.length ≤ 100 ∧
    leadsWith (strHead (dropWWW u.netloc) 100) (get_safe_filename u title now) = true ∧
    (title ≠ "" →
      get_safe_filename u title now =
        strHead (dropWWW u.netloc ++ "_" ++ cleanTitle title) 100) := by
  refine ⟨?_, ?_, fun ht => ?_⟩
  · show ((if title ≠ "" then _ else _ : String).data.take 100).length ≤ 100
    exact List.length_take_le 100 _
  · unfold get_safe_filename
    by_cases ht : title = ""
    · rw [if_neg (by simp [ht])]
      rw [String.append_assoc]
      exact leadsWith_strHead (dropWWW u.netloc) ("_" ++ toString now) 100
    · rw [if_pos ht]
      rw [String.append_assoc]
      exact leadsWith_strHead (dropWWW u.netloc) ("_" ++ cleanTitle title) 100
  · unfold get_safe_filename
    rw [if_pos ht]

theorem claim10_witness :
    get_safe_filename ⟨"https://www.example.com/a", "www.example.com", "/a"⟩
        "My Video!" 0 = "example.com_My-Video" :=
  ((claim10_spec ⟨"https://www.example.com/a", "www.example.com", "/a"⟩
      "My Video!" 0).2.2 (by decide)).trans (by decide)

end VideoDownloader
